import Mathlib

/-!
Verification of the Event-Driven-Image-Resizer repository.

The heart of the repository is `src/lambda/lambda_function.py`: a batch
handler (`lambda_handler`) that, for each queued S3 notification record,
fetches the uploaded image, halves its dimensions, stores the result in a
destination bucket, presigns a read URL, publishes an SNS message, and
deletes the source object.  `src/cdk/cdk_stack.py` declares the
infrastructure, including the API-gateway `/subscribe` integration.

We embed the handler shallowly.  External service calls (S3 get/put/delete,
presign, SNS publish) are modelled by per-record environments
(`RecordEnv`) that say how each call would respond — success with a value,
or a raised exception.  Running the handler yields a trace of the side
effects it performed plus either the returned response or the exception
that escaped it.  Conventions for the trace:
  - `fetch`/`presign` effects are recorded when the call is attempted
    (read-only operations);
  - `store`/`publish`/`delete` effects are recorded when the call succeeds
    (a raised write call has not produced its effect);
  - `log` records a `print`, `logTraceback` records `traceback.print_exc()`.
The top-level `print(event)` on entry is not modelled; no claim concerns it.
-/

/-- Python exceptions, as far as the `except` clauses of the handler
distinguish them: `AssertionError` (the recursion guard) versus every
other exception, carrying the message text. -/
inductive Exc where
  | assertionError (msg : String)
  | otherError (msg : String)
deriving Repr, DecidableEq

/-- The `sns_message` dict built at lines 70–73 of `lambda_function.py`:
a `default` text and an `email` text (`json.dumps` of this two-field dict
is what is published). -/
structure SnsMessage where
  defaultText : String
  emailText : String
deriving Repr, DecidableEq

/-- Observable side effects of one handler invocation, in order. -/
inductive Effect where
  | log (msg : String)
  | logTraceback
  | fetch (bucket key : String)
  | store (bucket key : String) (dims : Nat × Nat)
  | presign (bucket key : String) (expiration : Nat)
  | publish (topicArn : String) (message : SnsMessage)
  | delete (bucket key : String)
deriving Repr, DecidableEq

/-- The two environment variables read at module load
(`PROCESSED_BUCKET_NAME`, `SNS_TOPIC_ARN`). -/
structure Config where
  PROCESSED_BUCKET_NAME : String
  SNS_TOPIC_ARN : String
deriving Repr, DecidableEq

/-- Environment for one record of the batch: the parse outcome of its
envelope and the outcome each external call would have if made.
`body = some (bucket, key)` is the result of
`json.loads(record[\x22body\x22])` followed by extraction of
`Records[0].s3.bucket.name` / `Records[0].s3.object.key`; `none` means
that parsing/extraction raises.  `decodeResult` gives the (width, height)
`PIL.Image.open` reports, or the exception decoding raises. -/
structure RecordEnv where
  body : Option (String × String)
  keyIsString : Bool
  fetchResult : Except Exc Unit
  contentIsBytes : Bool
  decodeResult : Except Exc (Nat × Nat)
  putResult : Except Exc Unit
  presignCall : Except Exc String
  publishResult : Except Exc String
  deleteResult : Except Exc Unit
deriving Repr

/-- Message of an exception, as `print(e)` / an f-string would render it. -/
def Exc.msg : Exc → String
  | .assertionError m => m
  | .otherError m => m

/-- The Python default argument `expiration=3600` of
`generate_presigned_url`, applied at its only call site (line 65 passes no
expiration). -/
def DEFAULT_EXPIRATION : Nat := 3600

/-- Lines 16–24: wraps the S3 presign call; on an exception prints it and
returns `None`.  Returns the effects of the call attempt together with the
Python return value (`some url` or `none`). -/
def generate_presigned_url (bucket_name object_key : String) (expiration : Nat)
    (s3call : Except Exc String) : List Effect × Option String :=
  match s3call with
  | .ok response => ([.presign bucket_name object_key expiration], some response)
  | .error e => ([.presign bucket_name object_key expiration, .log e.msg], none)

/-- Lines 38–83: the body of the per-record `try` block, steps 1–7.
Returns the effects performed and the exception that interrupted the
block, if any. -/
def run_try (cfg : Config) (env : RecordEnv) (source_bucket_name file_key : String) :
    List Effect × Option Exc :=
  if env.keyIsString = false then
    ([], some (.otherError ("file_key must be a string, got another type instead.")))
  else
    match env.fetchResult with
    | .error e => ([.fetch source_bucket_name file_key], some e)
    | .ok _ =>
      if env.contentIsBytes = false then
        ([.fetch source_bucket_name file_key],
         some (.otherError "Expected s3_file_content to be bytes, got another type instead."))
      else
        match env.decodeResult with
        | .error e => ([.fetch source_bucket_name file_key], some e)
        | .ok wh =>
          let processed_file_key := "processed-" ++ file_key
          match env.putResult with
          | .error e => ([.fetch source_bucket_name file_key], some e)
          | .ok _ =>
            let effs0 := [Effect.fetch source_bucket_name file_key,
              Effect.store cfg.PROCESSED_BUCKET_NAME processed_file_key (wh.1 / 2, wh.2 / 2)]
            let presigned := generate_presigned_url cfg.PROCESSED_BUCKET_NAME
              processed_file_key DEFAULT_EXPIRATION env.presignCall
            match presigned.2 with
            | none =>
              (effs0 ++ presigned.1, some (.otherError "Failed to generate a presigned URL."))
            | some url =>
              let sns_message : SnsMessage :=
                ⟨"Your image has been processed successfully.",
                 "Your image has been processed and is available at the following link: " ++ url⟩
              match env.publishResult with
              | .error e => (effs0 ++ presigned.1, some e)
              | .ok sns_response =>
                let effs1 := effs0 ++ presigned.1 ++
                  [Effect.publish cfg.SNS_TOPIC_ARN sns_message]
                match env.deleteResult with
                | .error e => (effs1, some e)
                | .ok _ =>
                  (effs1 ++ [Effect.delete source_bucket_name file_key,
                    Effect.log ("Processed and removed " ++ file_key ++ " from "
                      ++ source_bucket_name ++ "."),
                    Effect.log sns_response], none)

/-- The guard message of the `assert` at line 36. -/
def GUARD_MSG : String :=
  "Source and destination buckets must be different to avoid recursion."

/-- Lines 29–91, one iteration of the `for record` loop.  Envelope parsing
(lines 30–33) and the recursion-guard `assert` (line 36) happen BEFORE the
`try` at line 38, so their exceptions are returned as `some e`
(propagating out of `lambda_handler`); exceptions inside the `try` are
caught by the `except` clauses at lines 85–91 and logged, so the iteration
returns `none`. -/
def process_record (cfg : Config) (env : RecordEnv) : List Effect × Option Exc :=
  match env.body with
  | none => ([], some (.otherError "json.loads / Records[0].s3 extraction failed"))
  | some sk =>
    let source_bucket_name := sk.1
    let file_key := sk.2
    if cfg.PROCESSED_BUCKET_NAME = source_bucket_name then
      ([], some (.assertionError GUARD_MSG))
    else
      let tr := run_try cfg env source_bucket_name file_key
      match tr.2 with
      | none => (tr.1, none)
      | some (.assertionError m) => (tr.1 ++ [.log m], none)
      | some (.otherError m) =>
        (tr.1 ++ [.log ("Error processing " ++ file_key ++ " from bucket "
          ++ source_bucket_name ++ ": " ++ m), .logTraceback], none)

/-- The fixed acknowledgment at lines 93–96:
a dict with statusCode 200 and body the json.dumps of the fixed
message. -/
def success_response : Nat × String :=
  (200, "\"Image processing completed for all valid records.\"")

/-- Lines 26–96: the batch handler.  Processes records in order; an
exception escaping the processing of a record (envelope parse or recursion
guard) aborts the loop and propagates, leaving later records unprocessed;
otherwise the fixed success acknowledgment is returned. -/
def lambda_handler (cfg : Config) (records : List RecordEnv) :
    List Effect × Except Exc (Nat × String) :=
  match records with
  | [] => ([], .ok success_response)
  | r :: rest =>
    let pr := process_record cfg r
    match pr.2 with
    | some e => (pr.1, .error e)
    | none =>
      let rec_rest := lambda_handler cfg rest
      (pr.1 ++ rec_rest.1, rec_rest.2)

/-- Number of (successful) destination-bucket stores in a trace. -/
def storeCount (tr : List Effect) : Nat :=
  (tr.filter fun e => match e with | .store _ _ _ => true | _ => false).length

/-- Number of (successful) SNS publishes in a trace. -/
def publishCount (tr : List Effect) : Nat :=
  (tr.filter fun e => match e with | .publish _ _ => true | _ => false).length

/-- Number of (successful) source-object deletes in a trace. -/
def deleteCount (tr : List Effect) : Nat :=
  (tr.filter fun e => match e with | .delete _ _ => true | _ => false).length

/-- `true` when a call result is a normal return. -/
def stepOk {α : Type} : Except Exc α → Bool
  | .ok _ => true
  | .error _ => false

/-- All steps 1–7 of a record succeed (and its envelope parses and the
recursion guard passes): the record is processed end to end. -/
def recordAllOk (cfg : Config) (env : RecordEnv) : Bool :=
  match env.body with
  | none => false
  | some sk =>
    (cfg.PROCESSED_BUCKET_NAME != sk.1) && env.keyIsString
      && stepOk env.fetchResult && env.contentIsBytes && stepOk env.decodeResult
      && stepOk env.putResult && stepOk env.presignCall
      && stepOk env.publishResult && stepOk env.deleteResult

/-- The record enters the `try` block but fails at or before the
destination store (steps 1–4): key check, fetch, bytes check, decode, or
put.  No processed object is stored and nothing is published for it. -/
def failsAtOrBeforeStore (cfg : Config) (env : RecordEnv) : Bool :=
  match env.body with
  | none => false
  | some sk =>
    (cfg.PROCESSED_BUCKET_NAME != sk.1)
      && (!env.keyIsString || !stepOk env.fetchResult || !env.contentIsBytes
          || !stepOk env.decodeResult || !stepOk env.putResult)

/-! ## The API-gateway `/subscribe` integration (`src/cdk/cdk_stack.py`)

`configure_api_methods` (lines 141–177) attaches to `POST /subscribe` an
AWS integration with service `sns`, action `Subscribe`, a request template
mapping the JSON body onto the Subscribe parameters, and a single `200`
integration response with a fixed body.  We embed that declarative
configuration directly from the source and model the runtime
evaluation of it from the spec. -/

/-- A VTL mapping-template expression, as used in the request template:
either a literal string or `$input.path` selecting the named top-level
field of the request body (the source writes the selector as `$.field`). -/
inductive TemplateExpr where
  | lit (s : String)
  | inputPath (field : String)
deriving Repr, DecidableEq

/-- The `request_templates[application/json]` dict at lines 157–165:
`Endpoint` is `$input.path` of the `email` field of the body, `Protocol`
is the literal `email`, `TopicArn` is the ARN of the topic. -/
structure SubscribeTemplate where
  Endpoint : TemplateExpr
  Protocol : TemplateExpr
  TopicArn : TemplateExpr
deriving Repr, DecidableEq

/-- The subscribe request template as declared in `configure_api_methods`,
for a stack whose topic has the given ARN. -/
def subscribe_request_template (topic_arn : String) : SubscribeTemplate :=
  ⟨.inputPath "email", .lit "email", .lit topic_arn⟩

/-- The `response_templates[application/json]` body of the single `200`
integration response (line 170). -/
def subscribe_response_body : String :=
  "\x7b\"Message\":\"Subscription request has been sent.\"\x7d"

/-- One `sns:Subscribe` API call, as the integration issues it. -/
structure SubscribeCall where
  Protocol : String
  Endpoint : String
  TopicArn : String
deriving Repr, DecidableEq

/-- A JSON object body of string fields, e.g. the POSTed
`\x7b"email": "user@example.com"\x7d` plus any other fields. -/
abbrev JsonBody : Type := List (String × String)

/-- Modelled from the spec: VTL `$input.path` evaluation on a flat JSON
object body — the selector picks the value of the named field; an absent field
renders as the empty string.  (The gateway runtime belongs to the
platform, not to this repository; the spec fixes only this forwarding
behavior.) -/
def evalTemplateExpr (body : JsonBody) : TemplateExpr → String
  | .lit s => s
  | .inputPath field =>
    match body.lookup field with
    | some v => v
    | none => ""

/-- Modelled from the spec: how the HTTP gateway handles one
`POST /subscribe` request — it evaluates the configured request template
against the request body, issues exactly one `Subscribe` call with the
resulting parameters, and answers with the configured `200` integration
response.  Returns the list of Subscribe calls issued and the
(status, body) response. -/
def gateway_subscribe (tmpl : SubscribeTemplate) (body : JsonBody) :
    List SubscribeCall × (Nat × String) :=
  ([⟨evalTemplateExpr body tmpl.Protocol,
     evalTemplateExpr body tmpl.Endpoint,
     evalTemplateExpr body tmpl.TopicArn⟩],
   (200, subscribe_response_body))

/-! ## Concrete instances used to exercise the definitions -/

/-- A configuration with distinct bucket names. -/
def testCfg : Config := ⟨"processed-bucket", "arn-image-resize-topic"⟩

/-- A record environment in which every external call succeeds. -/
def okEnv : RecordEnv :=
  ⟨some ("raw-bucket", "cat.jpg"), true, .ok (), true, .ok (4, 6), .ok (),
   .ok "https://presigned.example/processed-cat.jpg", .ok "message-id-1", .ok ()⟩

/-- A record whose source bucket equals the configured processed bucket:
the recursion-guard scenario. -/
def guardEnv : RecordEnv :=
  ⟨some ("processed-bucket", "cat.jpg"), true, .ok (), true, .ok (4, 6), .ok (),
   .ok "https://presigned.example/processed-cat.jpg", .ok "message-id-1", .ok ()⟩

/-- A record whose S3 fetch raises. -/
def fetchFailEnv : RecordEnv :=
  ⟨some ("raw-bucket", "cat.jpg"), true, .error (.otherError "NoSuchKey"), true,
   .ok (4, 6), .ok (), .ok "https://presigned.example/processed-cat.jpg",
   .ok "message-id-1", .ok ()⟩

/-- A record whose final source-object delete raises (steps 1–6 succeed). -/
def deleteFailEnv : RecordEnv :=
  ⟨some ("raw-bucket", "cat.jpg"), true, .ok (), true, .ok (4, 6), .ok (),
   .ok "https://presigned.example/processed-cat.jpg", .ok "message-id-1",
   .error (.otherError "AccessDenied")⟩

/-- A record whose presign call raises (so `generate_presigned_url`
returns `None`); everything before it succeeds. -/
def presignFailEnv : RecordEnv :=
  ⟨some ("raw-bucket", "cat.jpg"), true, .ok (), true, .ok (4, 6), .ok (),
   .error (.otherError "credentials expired"), .ok "message-id-1", .ok ()⟩

/-- A record whose envelope body fails to parse. -/
def badBodyEnv : RecordEnv :=
  ⟨none, true, .ok (), true, .ok (4, 6), .ok (),
   .ok "https://presigned.example/processed-cat.jpg", .ok "message-id-1", .ok ()⟩

/-- A decodable 1-pixel-wide image: the floor-halving edge case. -/
def onePixelWideEnv : RecordEnv :=
  ⟨some ("raw-bucket", "thin.jpg"), true, .ok (), true, .ok (1, 5), .ok (),
   .ok "https://presigned.example/processed-thin.jpg", .ok "message-id-2", .ok ()⟩

/-! ## Helper lemmas about the batch handler -/

/-- Concatenated per-record traces of a batch. -/
def recordTraces (cfg : Config) (rs : List RecordEnv) : List Effect :=
  (rs.map fun r => (process_record cfg r).1).flatten

theorem storeCount_append (a b : List Effect) :
    storeCount (a ++ b) = storeCount a + storeCount b := by
  simp [storeCount, List.filter_append]

theorem publishCount_append (a b : List Effect) :
    publishCount (a ++ b) = publishCount a + publishCount b := by
  simp [publishCount, List.filter_append]

theorem deleteCount_append (a b : List Effect) :
    deleteCount (a ++ b) = deleteCount a + deleteCount b := by
  simp [deleteCount, List.filter_append]

/-- If every record of the batch is handled without an escaping exception,
the handler returns the concatenated traces and the fixed success
acknowledgment. -/
theorem handler_all_handled (cfg : Config) (rs : List RecordEnv)
    (h : ∀ r ∈ rs, (process_record cfg r).2 = none) :
    lambda_handler cfg rs = (recordTraces cfg rs, .ok success_response) := by
  induction rs with
  | nil => rfl
  | cons r rest ih =>
    have hr : (process_record cfg r).2 = none := h r (by simp)
    have hrest := ih fun x hx => h x (by simp [hx])
    simp [lambda_handler, hr, hrest, recordTraces]

/-- If the records before `env` are all handled but the processing of
`env` itself raises `e` outside the `try` block, the handler stops at `env`:
it propagates `e` and the records after `env` contribute no effects. -/
theorem handler_aborts (cfg : Config) (pre post : List RecordEnv)
    (env : RecordEnv) (e : Exc)
    (hpre : ∀ r ∈ pre, (process_record cfg r).2 = none)
    (henv : (process_record cfg env).2 = some e) :
    lambda_handler cfg (pre ++ env :: post) =
      (recordTraces cfg pre ++ (process_record cfg env).1, .error e) := by
  induction pre with
  | nil => simp [lambda_handler, henv, recordTraces]
  | cons r rest ih =>
    have hr : (process_record cfg r).2 = none := hpre r (by simp)
    have hrest := ih fun x hx => hpre x (by simp [hx])
    simp [lambda_handler, hr, hrest, recordTraces]

/-- The exact trace and outcome of a fully successful record: steps 1–7 in
source order, with the processed key, halved dimensions, default
expiration, both message variants, and delete after publish. -/
theorem process_record_ok_trace (cfg : Config) (env : RecordEnv)
    (source key url msgid : String) (w h : Nat)
    (hbody : env.body = some (source, key))
    (hguard : cfg.PROCESSED_BUCKET_NAME ≠ source)
    (hks : env.keyIsString = true)
    (hf : env.fetchResult = .ok ())
    (hc : env.contentIsBytes = true)
    (hd : env.decodeResult = .ok (w, h))
    (hp : env.putResult = .ok ())
    (hu : env.presignCall = .ok url)
    (hpub : env.publishResult = .ok msgid)
    (hdel : env.deleteResult = .ok ()) :
    process_record cfg env =
      ([.fetch source key,
        .store cfg.PROCESSED_BUCKET_NAME ("processed-" ++ key) (w / 2, h / 2),
        .presign cfg.PROCESSED_BUCKET_NAME ("processed-" ++ key) 3600,
        .publish cfg.SNS_TOPIC_ARN
          ⟨"Your image has been processed successfully.",
           "Your image has been processed and is available at the following link: " ++ url⟩,
        .delete source key,
        .log ("Processed and removed " ++ key ++ " from " ++ source ++ "."),
        .log msgid], none) := by
  simp [process_record, run_try, generate_presigned_url, DEFAULT_EXPIRATION,
    hbody, hguard, hks, hf, hc, hd, hp, hu, hpub, hdel]

/-- A record with `recordAllOk` is handled and contributes exactly one
store, one publish, and one delete. -/
theorem process_record_ok_counts (cfg : Config) (env : RecordEnv)
    (h : recordAllOk cfg env = true) :
    (process_record cfg env).2 = none
    ∧ storeCount (process_record cfg env).1 = 1
    ∧ publishCount (process_record cfg env).1 = 1
    ∧ deleteCount (process_record cfg env).1 = 1 := by
  obtain ⟨body, ks, fr, cb, dr, pr, pc, pubr, delr⟩ := env
  cases body with
  | none => simp [recordAllOk] at h
  | some sk =>
    simp only [recordAllOk, Bool.and_eq_true, bne_iff_ne, ne_eq] at h
    obtain ⟨⟨⟨⟨⟨⟨⟨⟨hne, hks⟩, hfr⟩, hcb⟩, hdr⟩, hpr⟩, hpc⟩, hpubr⟩, hdelr⟩ := h
    cases fr with
    | error e => simp [stepOk] at hfr
    | ok u =>
      cases dr with
      | error e => simp [stepOk] at hdr
      | ok wh =>
        cases pr with
        | error e => simp [stepOk] at hpr
        | ok v =>
          cases pc with
          | error e => simp [stepOk] at hpc
          | ok url =>
            cases pubr with
            | error e => simp [stepOk] at hpubr
            | ok msgid =>
              cases delr with
              | error e => simp [stepOk] at hdelr
              | ok t =>
                simp [process_record, run_try, generate_presigned_url,
                  hne, hks, hcb, storeCount, publishCount, deleteCount,
                  List.filter_append]

/-- When the `try` block raises, the `except` clauses catch the exception
and only append log effects: the iteration is handled and its store,
publish, and delete counts are those of the interrupted `try` block. -/
theorem process_record_caught (cfg : Config) (env : RecordEnv)
    (source key : String) (e : Exc)
    (hbody : env.body = some (source, key))
    (hguard : cfg.PROCESSED_BUCKET_NAME ≠ source)
    (hrun : (run_try cfg env source key).2 = some e) :
    (process_record cfg env).2 = none
    ∧ storeCount (process_record cfg env).1
        = storeCount (run_try cfg env source key).1
    ∧ publishCount (process_record cfg env).1
        = publishCount (run_try cfg env source key).1
    ∧ deleteCount (process_record cfg env).1
        = deleteCount (run_try cfg env source key).1 := by
  cases e with
  | assertionError m =>
    simp [process_record, hbody, hguard, hrun, storeCount_append,
      publishCount_append, deleteCount_append, storeCount, publishCount,
      deleteCount]
  | otherError m =>
    simp [process_record, hbody, hguard, hrun, storeCount_append,
      publishCount_append, deleteCount_append, storeCount, publishCount,
      deleteCount]

/-- A `try` block that fails at or before the destination store (key
check, fetch, bytes check, decode, or put) raises and performs no store,
publish, or delete. -/
theorem run_try_early (cfg : Config) (env : RecordEnv) (s k : String)
    (hfail : env.keyIsString = false ∨ stepOk env.fetchResult = false
      ∨ env.contentIsBytes = false ∨ stepOk env.decodeResult = false
      ∨ stepOk env.putResult = false) :
    ∃ e, (run_try cfg env s k).2 = some e
    ∧ storeCount (run_try cfg env s k).1 = 0
    ∧ publishCount (run_try cfg env s k).1 = 0
    ∧ deleteCount (run_try cfg env s k).1 = 0 := by
  obtain ⟨body, ks, fr, cb, dr, pr, pc, pubr, delr⟩ := env
  cases ks <;> cases cb <;> cases fr <;> cases dr <;> cases pr <;>
    simp_all [run_try, stepOk, storeCount, publishCount, deleteCount]

/-- A record that enters the `try` block but fails at or before the
destination store is handled (the exception is caught) and contributes no
store, no publish, and no delete. -/
theorem process_record_early_counts (cfg : Config) (env : RecordEnv)
    (h : failsAtOrBeforeStore cfg env = true) :
    (process_record cfg env).2 = none
    ∧ storeCount (process_record cfg env).1 = 0
    ∧ publishCount (process_record cfg env).1 = 0
    ∧ deleteCount (process_record cfg env).1 = 0 := by
  cases hbody : env.body with
  | none => simp [failsAtOrBeforeStore, hbody] at h
  | some sk =>
    simp only [failsAtOrBeforeStore, hbody, Bool.and_eq_true, bne_iff_ne,
      ne_eq, Bool.or_eq_true, Bool.not_eq_true'] at h
    obtain ⟨hne, hfail⟩ := h
    obtain ⟨e, he, h1, h2, h3⟩ := run_try_early cfg env sk.1 sk.2 (by tauto)
    obtain ⟨hnone, hs, hp, hd⟩ :=
      process_record_caught cfg env sk.1 sk.2 e hbody hne he
    exact ⟨hnone, hs.trans h1, hp.trans h2, hd.trans h3⟩

theorem recordTraces_append (cfg : Config) (a b : List RecordEnv) :
    recordTraces cfg (a ++ b) = recordTraces cfg a ++ recordTraces cfg b := by
  simp [recordTraces]

/-- A batch of end-to-end successful records contributes one store and one
publish per record. -/
theorem recordTraces_ok_counts (cfg : Config) (rs : List RecordEnv)
    (h : ∀ r ∈ rs, recordAllOk cfg r = true) :
    storeCount (recordTraces cfg rs) = rs.length
    ∧ publishCount (recordTraces cfg rs) = rs.length := by
  induction rs with
  | nil => simp [recordTraces, storeCount, publishCount]
  | cons r rest ih =>
    obtain ⟨-, hs, hp, -⟩ := process_record_ok_counts cfg r (h r (by simp))
    obtain ⟨ihs, ihp⟩ := ih fun x hx => h x (by simp [hx])
    simp only [recordTraces, List.map_cons, List.flatten_cons, List.length_cons,
      storeCount_append, publishCount_append, hs, hp]
    simp only [recordTraces] at ihs ihp
    omega

/-- The `except` clauses only append `log`/`logTraceback` effects to the
trace of the interrupted `try` block. -/
theorem process_record_decomp (cfg : Config) (env : RecordEnv)
    (source key : String)
    (hbody : env.body = some (source, key))
    (hguard : cfg.PROCESSED_BUCKET_NAME ≠ source) :
    ∃ logs, (process_record cfg env).1 = (run_try cfg env source key).1 ++ logs
      ∧ ∀ x ∈ logs, (∃ m, x = Effect.log m) ∨ x = Effect.logTraceback := by
  cases hrun : (run_try cfg env source key).2 with
  | none =>
    refine ⟨[], ?_, by simp⟩
    simp [process_record, hbody, hguard, hrun]
  | some e =>
    cases e with
    | assertionError m =>
      refine ⟨[.log m], ?_, by simp⟩
      simp [process_record, hbody, hguard, hrun]
    | otherError m =>
      refine ⟨[.log ("Error processing " ++ key ++ " from bucket " ++ source
        ++ ": " ++ m), .logTraceback], ?_, by simp⟩
      simp [process_record, hbody, hguard, hrun]

/-- Every presign effect the `try` block performs carries the default
expiration of 3600 seconds. -/
theorem run_try_presign_exp (cfg : Config) (env : RecordEnv)
    (s k b k2 : String) (e : Nat)
    (hmem : Effect.presign b k2 e ∈ (run_try cfg env s k).1) : e = 3600 := by
  obtain ⟨body, ks, fr, cb, dr, pr, pc, pubr, delr⟩ := env
  cases ks <;> cases cb <;> cases fr <;> cases dr <;> cases pr <;>
    cases pc <;> cases pubr <;> cases delr <;>
    simp_all [run_try, generate_presigned_url, DEFAULT_EXPIRATION]

/-- If the presign call raises, the `try` block raises (at or before the
presign check) and performs no publish and no delete. -/
theorem run_try_presign_fail (cfg : Config) (env : RecordEnv)
    (s k : String) (e0 : Exc)
    (hpc : env.presignCall = .error e0) :
    (∃ e, (run_try cfg env s k).2 = some e)
    ∧ (∀ t m, Effect.publish t m ∉ (run_try cfg env s k).1)
    ∧ (∀ b k2, Effect.delete b k2 ∉ (run_try cfg env s k).1) := by
  obtain ⟨body, ks, fr, cb, dr, pr, pc, pubr, delr⟩ := env
  cases ks <;> cases cb <;> cases fr <;> cases dr <;> cases pr <;>
    simp_all [run_try, generate_presigned_url, stepOk]

/-! ## Claims -/

/-- C1: the claim says a record whose source bucket equals the configured
processed bucket is skipped per-record — guard message logged once, no
fetch/store/delete, batch continues, nothing propagates.  The code
violates this: the `assert` at line 36 sits BEFORE the `try` at line 38,
so the AssertionError escapes `lambda_handler`, the guard message is never
logged by the own `except AssertionError` clause of the handler (lines 85–87,
which are unreachable for it), and the remaining records of the batch —
here a perfectly processable one — are never attempted. -/
theorem guard_violation_escapes_handler :
    lambda_handler testCfg [guardEnv, okEnv]
      = ([], .error (.assertionError GUARD_MSG)) := by
  rfl

/-- C9: `generate_presigned_url` is total — it returns the presigned URL
when the underlying presign call succeeds and `none` when that call
raises, for every bucket, key, and expiration; no exception propagates
(its return type carries no exception). -/
theorem generate_presigned_url_total (b k : String) (exp : Nat)
    (call : Except Exc String) :
    (∀ url, call = .ok url → (generate_presigned_url b k exp call).2 = some url)
    ∧ (∀ e, call = .error e → (generate_presigned_url b k exp call).2 = none) := by
  constructor <;> intro x hx <;> subst hx <;> rfl

/-- Witness for C9 at a concrete bucket, key, and both call outcomes. -/
theorem generate_presigned_url_total_witness :
    (generate_presigned_url "b" "k" 3600 (Except.ok "u")).2 = some "u"
    ∧ (generate_presigned_url "b" "k" 3600
        (Except.error (Exc.otherError "x"))).2 = none :=
  ⟨(generate_presigned_url_total "b" "k" 3600 (Except.ok "u")).1 "u" rfl,
   (generate_presigned_url_total "b" "k" 3600
      (Except.error (Exc.otherError "x"))).2 (Exc.otherError "x") rfl⟩

/-- C7: a `POST /subscribe` whose JSON body has an `email` field produces
exactly one Subscribe call — protocol fixed to `email`, endpoint taken
from the `email` field of the body, topic the configured ARN — regardless of
any other body fields, and the fixed `200` response. -/
theorem subscribe_route_one_call (topic_arn e : String) (body : JsonBody)
    (hemail : body.lookup "email" = some e) :
    gateway_subscribe (subscribe_request_template topic_arn) body =
      ([⟨"email", e, topic_arn⟩],
       (200, "\x7b\"Message\":\"Subscription request has been sent.\"\x7d")) := by
  simp [gateway_subscribe, subscribe_request_template, evalTemplateExpr,
    hemail, subscribe_response_body]

/-- Witness for C7: a body with an extra field still yields exactly one
Subscribe call for its `email` field. -/
theorem subscribe_route_one_call_witness :
    gateway_subscribe (subscribe_request_template "arn-topic")
        [("other", "1"), ("email", "user@example.com")] =
      ([⟨"email", "user@example.com", "arn-topic"⟩],
       (200, "\x7b\"Message\":\"Subscription request has been sent.\"\x7d")) :=
  subscribe_route_one_call "arn-topic" "user@example.com"
    [("other", "1"), ("email", "user@example.com")] rfl

/-- C8: envelope parsing (`json.loads` of the record body and extraction
of `Records[0].s3.bucket.name` / `.object.key`, lines 30–33) happens
before the per-record `try`, so a record with an unparsable envelope
raises out of `lambda_handler`; the batch is aborted and the records
after it contribute nothing to the trace. -/
theorem malformed_envelope_aborts_batch (cfg : Config)
    (pre post : List RecordEnv) (env : RecordEnv)
    (hpre : ∀ r ∈ pre, (process_record cfg r).2 = none)
    (hbody : env.body = none) :
    (∃ e, (lambda_handler cfg (pre ++ env :: post)).2 = .error e)
    ∧ (lambda_handler cfg (pre ++ env :: post)).1 = recordTraces cfg pre := by
  have henv : (process_record cfg env).2
      = some (.otherError "json.loads / Records[0].s3 extraction failed") := by
    simp [process_record, hbody]
  have habort := handler_aborts cfg pre post env _ hpre henv
  constructor
  · exact ⟨_, by rw [habort]⟩
  · rw [habort]
    have : (process_record cfg env).1 = [] := by simp [process_record, hbody]
    simp [this]

/-- Witness for C8: a malformed record between two processable records
aborts the batch right after the effects of the first record — the second `okEnv`
contributes nothing. -/
theorem malformed_envelope_aborts_batch_witness :
    (lambda_handler testCfg ([okEnv] ++ badBodyEnv :: [okEnv])).1
      = recordTraces testCfg [okEnv] :=
  (malformed_envelope_aborts_batch testCfg [okEnv] [okEnv] badBodyEnv
    (by intro r hr; simp at hr; subst hr; rfl) rfl).2

/-- C2: an exception raised inside the guarded steps 1–7 is caught in the
handler and logged with the source bucket and key (plus a traceback), and
the batch still returns the success acknowledgment — sibling records are
not aborted; in particular a failure at the storage-fetch step leaves no
publish and no delete effect for that record. -/
theorem record_failure_isolated (cfg : Config) (env : RecordEnv)
    (source key m : String) (pre post : List RecordEnv)
    (hbody : env.body = some (source, key))
    (hguard : cfg.PROCESSED_BUCKET_NAME ≠ source)
    (hrun : (run_try cfg env source key).2 = some (.otherError m))
    (hpre : ∀ r ∈ pre, (process_record cfg r).2 = none)
    (hpost : ∀ r ∈ post, (process_record cfg r).2 = none) :
    (process_record cfg env).2 = none
    ∧ (process_record cfg env).1 = (run_try cfg env source key).1
        ++ [.log ("Error processing " ++ key ++ " from bucket " ++ source
              ++ ": " ++ m),
            .logTraceback]
    ∧ (lambda_handler cfg (pre ++ env :: post)).2 = .ok success_response
    ∧ (env.keyIsString = true → env.fetchResult = .error (.otherError m) →
        (∀ t msg, Effect.publish t msg ∉ (process_record cfg env).1)
        ∧ (∀ b k2, Effect.delete b k2 ∉ (process_record cfg env).1)) := by
  have hpr : process_record cfg env
      = ((run_try cfg env source key).1
          ++ [.log ("Error processing " ++ key ++ " from bucket " ++ source
                ++ ": " ++ m),
              .logTraceback], none) := by
    simp [process_record, hbody, hguard, hrun]
  have hall : ∀ r ∈ pre ++ env :: post, (process_record cfg r).2 = none := by
    intro r hr
    rcases List.mem_append.1 hr with hx | hx
    · exact hpre r hx
    · rcases List.mem_cons.1 hx with rfl | hx
      · rw [hpr]
      · exact hpost r hx
  refine ⟨by rw [hpr], by rw [hpr], ?_, ?_⟩
  · rw [handler_all_handled cfg _ hall]
  · intro hks hfetch
    have htr : (run_try cfg env source key).1 = [.fetch source key] := by
      simp [run_try, hks, hfetch]
    rw [hpr]
    constructor
    · intro t msg
      simp [htr]
    · intro b k2
      simp [htr]

/-- Witness for C2: a fetch failure in a two-record batch is contained,
the batch acknowledges success, and the failed record has no publish and
no delete. -/
theorem record_failure_isolated_witness :
    (process_record testCfg fetchFailEnv).2 = none
    ∧ (lambda_handler testCfg ([] ++ fetchFailEnv :: [okEnv])).2
        = .ok success_response
    ∧ Effect.publish "arn-image-resize-topic" ⟨"a", "b"⟩
        ∉ (process_record testCfg fetchFailEnv).1
    ∧ Effect.delete "raw-bucket" "cat.jpg"
        ∉ (process_record testCfg fetchFailEnv).1 := by
  have hh := record_failure_isolated testCfg fetchFailEnv "raw-bucket"
    "cat.jpg" "NoSuchKey" [] [okEnv] rfl (by decide) rfl (by simp)
    (by intro r hr; simp at hr; subst hr; rfl)
  exact ⟨hh.1, hh.2.2.1, (hh.2.2.2 rfl rfl).1 _ _, (hh.2.2.2 rfl rfl).2 _ _⟩

/-- C3 counterexample: a batch of N = 1 whose single record fails during
steps 1–7 — at the delete step — yet the processed object was stored and
the publish was made: 1 store and 1 publish, not N-1 = 0 as the claim
requires for every failing step. -/
theorem late_failure_refutes_batch_counts :
    (process_record testCfg deleteFailEnv).2 = none
    ∧ (lambda_handler testCfg [deleteFailEnv]).2 = .ok success_response
    ∧ storeCount (lambda_handler testCfg [deleteFailEnv]).1 = 1
    ∧ publishCount (lambda_handler testCfg [deleteFailEnv]).1 = 1
    ∧ ¬(storeCount (lambda_handler testCfg [deleteFailEnv]).1
        = List.length [deleteFailEnv] - 1) := by
  exact ⟨rfl, rfl, rfl, rfl, by decide⟩

/-- C3 amended: when the one failing record of the batch fails at or
before the destination store (steps 1–4), exactly N-1 processed objects
are stored and exactly N-1 publishes are made, and the handler still
returns its fixed success acknowledgment; the empty batch returns the
same acknowledgment with no effects. -/
theorem batch_counts_amended (cfg : Config) (pre post : List RecordEnv)
    (env : RecordEnv)
    (hpre : ∀ r ∈ pre, recordAllOk cfg r = true)
    (hpost : ∀ r ∈ post, recordAllOk cfg r = true)
    (henv : failsAtOrBeforeStore cfg env = true) :
    storeCount (lambda_handler cfg (pre ++ env :: post)).1
      = (pre ++ env :: post).length - 1
    ∧ publishCount (lambda_handler cfg (pre ++ env :: post)).1
      = (pre ++ env :: post).length - 1
    ∧ (lambda_handler cfg (pre ++ env :: post)).2 = .ok success_response
    ∧ lambda_handler cfg [] = ([], .ok success_response) := by
  obtain ⟨hnone, hs0, hp0, -⟩ := process_record_early_counts cfg env henv
  have hall : ∀ r ∈ pre ++ env :: post, (process_record cfg r).2 = none := by
    intro r hr
    rcases List.mem_append.1 hr with hx | hx
    · exact (process_record_ok_counts cfg r (hpre r hx)).1
    · rcases List.mem_cons.1 hx with rfl | hx
      · exact hnone
      · exact (process_record_ok_counts cfg r (hpost r hx)).1
  obtain ⟨hsp, hpp⟩ := recordTraces_ok_counts cfg pre hpre
  obtain ⟨hsq, hpq⟩ := recordTraces_ok_counts cfg post hpost
  have hmid : recordTraces cfg (env :: post)
      = (process_record cfg env).1 ++ recordTraces cfg post := by
    simp [recordTraces]
  rw [handler_all_handled cfg _ hall]
  refine ⟨?_, ?_, rfl, rfl⟩
  · rw [recordTraces_append, hmid, storeCount_append, storeCount_append,
      hsp, hs0, hsq]
    simp
  · rw [recordTraces_append, hmid, publishCount_append, publishCount_append,
      hpp, hp0, hpq]
    simp

/-- Witness for C3 (amended) on a three-record batch whose middle record
fails at the fetch: 2 stores, 2 publishes, success acknowledgment. -/
theorem batch_counts_amended_witness :
    storeCount (lambda_handler testCfg ([okEnv] ++ fetchFailEnv :: [okEnv])).1
      = ([okEnv] ++ fetchFailEnv :: [okEnv]).length - 1
    ∧ publishCount (lambda_handler testCfg
        ([okEnv] ++ fetchFailEnv :: [okEnv])).1
      = ([okEnv] ++ fetchFailEnv :: [okEnv]).length - 1
    ∧ (lambda_handler testCfg ([okEnv] ++ fetchFailEnv :: [okEnv])).2
      = .ok success_response
    ∧ lambda_handler testCfg [] = ([], .ok success_response) :=
  batch_counts_amended testCfg [okEnv] [okEnv] fetchFailEnv
    (by intro r hr; simp at hr; subst hr; rfl)
    (by intro r hr; simp at hr; subst hr; rfl) rfl

/-- C4: a record processed successfully end to end performs exactly one
store at the destination bucket under key `processed-` + original key,
exactly one publish whose message carries both the `default` and the
`email` text variants, and exactly one delete of the original key from the
source bucket — and the trace order places the delete after the publish. -/
theorem successful_record_effects (cfg : Config) (env : RecordEnv)
    (source key url msgid : String) (w h : Nat)
    (hbody : env.body = some (source, key))
    (hguard : cfg.PROCESSED_BUCKET_NAME ≠ source)
    (hks : env.keyIsString = true)
    (hf : env.fetchResult = .ok ())
    (hc : env.contentIsBytes = true)
    (hd : env.decodeResult = .ok (w, h))
    (hp : env.putResult = .ok ())
    (hu : env.presignCall = .ok url)
    (hpub : env.publishResult = .ok msgid)
    (hdel : env.deleteResult = .ok ()) :
    process_record cfg env =
      ([.fetch source key,
        .store cfg.PROCESSED_BUCKET_NAME ("processed-" ++ key) (w / 2, h / 2),
        .presign cfg.PROCESSED_BUCKET_NAME ("processed-" ++ key) 3600,
        .publish cfg.SNS_TOPIC_ARN
          ⟨"Your image has been processed successfully.",
           "Your image has been processed and is available at the following link: "
             ++ url⟩,
        .delete source key,
        .log ("Processed and removed " ++ key ++ " from " ++ source ++ "."),
        .log msgid], none)
    ∧ storeCount (process_record cfg env).1 = 1
    ∧ publishCount (process_record cfg env).1 = 1
    ∧ deleteCount (process_record cfg env).1 = 1 := by
  have ht := process_record_ok_trace cfg env source key url msgid w h hbody
    hguard hks hf hc hd hp hu hpub hdel
  refine ⟨ht, ?_, ?_, ?_⟩ <;> rw [ht] <;> rfl

/-- Witness for C4 at a fully successful concrete record. -/
theorem successful_record_effects_witness :
    process_record testCfg okEnv =
      ([.fetch "raw-bucket" "cat.jpg",
        .store "processed-bucket" ("processed-" ++ "cat.jpg") (4 / 2, 6 / 2),
        .presign "processed-bucket" ("processed-" ++ "cat.jpg") 3600,
        .publish "arn-image-resize-topic"
          ⟨"Your image has been processed successfully.",
           "Your image has been processed and is available at the following link: "
             ++ "https://presigned.example/processed-cat.jpg"⟩,
        .delete "raw-bucket" "cat.jpg",
        .log ("Processed and removed " ++ "cat.jpg" ++ " from "
          ++ "raw-bucket" ++ "."),
        .log "message-id-1"], none)
    ∧ storeCount (process_record testCfg okEnv).1 = 1
    ∧ publishCount (process_record testCfg okEnv).1 = 1
    ∧ deleteCount (process_record testCfg okEnv).1 = 1 :=
  successful_record_effects testCfg okEnv "raw-bucket" "cat.jpg"
    "https://presigned.example/processed-cat.jpg" "message-id-1" 4 6
    rfl (by decide) rfl rfl rfl rfl rfl rfl rfl rfl

/-- C5: for a decodable image of width w and height h, the processed
object is stored with dimensions exactly (floor(w/2), floor(h/2)); a
1-pixel source axis maps to 0. -/
theorem resize_halves_dimensions (cfg : Config) (env : RecordEnv)
    (source key url msgid : String) (w h : Nat)
    (hbody : env.body = some (source, key))
    (hguard : cfg.PROCESSED_BUCKET_NAME ≠ source)
    (hks : env.keyIsString = true)
    (hf : env.fetchResult = .ok ())
    (hc : env.contentIsBytes = true)
    (hd : env.decodeResult = .ok (w, h))
    (hp : env.putResult = .ok ())
    (hu : env.presignCall = .ok url)
    (hpub : env.publishResult = .ok msgid)
    (hdel : env.deleteResult = .ok ()) :
    Effect.store cfg.PROCESSED_BUCKET_NAME ("processed-" ++ key) (w / 2, h / 2)
      ∈ (process_record cfg env).1
    ∧ (w = 1 →
        Effect.store cfg.PROCESSED_BUCKET_NAME ("processed-" ++ key) (0, h / 2)
          ∈ (process_record cfg env).1) := by
  have ht := process_record_ok_trace cfg env source key url msgid w h hbody
    hguard hks hf hc hd hp hu hpub hdel
  constructor
  · rw [ht]
    simp
  · intro hw
    subst hw
    rw [ht]
    simp

/-- Witness for C5 at a 1×5 image: the stored dimensions are (0, 2). -/
theorem resize_halves_dimensions_witness :
    Effect.store "processed-bucket" ("processed-" ++ "thin.jpg") (0, 2)
      ∈ (process_record testCfg onePixelWideEnv).1 :=
  (resize_halves_dimensions testCfg onePixelWideEnv "raw-bucket" "thin.jpg"
    "https://presigned.example/processed-thin.jpg" "message-id-2" 1 5
    rfl (by decide) rfl rfl rfl rfl rfl rfl rfl rfl).2 rfl

/-- C6: every presigned-URL request the record makes carries the default
expiration window of 3600 seconds, and if obtaining the URL fails
(the presign call raises, so `generate_presigned_url` returns `None`) the
record aborts: the raised ValueError is caught and the record has no
publish and no delete effect. -/
theorem presign_expiration_policy (cfg : Config) (env : RecordEnv)
    (source key : String)
    (hbody : env.body = some (source, key))
    (hguard : cfg.PROCESSED_BUCKET_NAME ≠ source) :
    (∀ b k2 e, Effect.presign b k2 e ∈ (process_record cfg env).1 → e = 3600)
    ∧ (∀ e0, env.presignCall = .error e0 →
        (process_record cfg env).2 = none
        ∧ (∀ t m, Effect.publish t m ∉ (process_record cfg env).1)
        ∧ (∀ b k2, Effect.delete b k2 ∉ (process_record cfg env).1)) := by
  obtain ⟨logs, hdec, hlogs⟩ := process_record_decomp cfg env source key
    hbody hguard
  constructor
  · intro b k2 e hm
    rw [hdec] at hm
    rcases List.mem_append.1 hm with hm | hm
    · exact run_try_presign_exp cfg env source key b k2 e hm
    · rcases hlogs _ hm with ⟨m2, hx⟩ | hx <;> simp at hx
  · intro e0 hpc
    obtain ⟨⟨e, he⟩, hnp, hnd⟩ := run_try_presign_fail cfg env source key
      e0 hpc
    refine ⟨(process_record_caught cfg env source key e hbody hguard he).1,
      ?_, ?_⟩
    · intro t m hm
      rw [hdec] at hm
      rcases List.mem_append.1 hm with hm | hm
      · exact hnp t m hm
      · rcases hlogs _ hm with ⟨m2, hx⟩ | hx <;> simp at hx
    · intro b k2 hm
      rw [hdec] at hm
      rcases List.mem_append.1 hm with hm | hm
      · exact hnd b k2 hm
      · rcases hlogs _ hm with ⟨m2, hx⟩ | hx <;> simp at hx

/-- Witness for C6: a record whose presign call raises is handled and has
no publish and no delete effect. -/
theorem presign_expiration_policy_witness :
    (process_record testCfg presignFailEnv).2 = none
    ∧ Effect.publish "arn-image-resize-topic" ⟨"a", "b"⟩
        ∉ (process_record testCfg presignFailEnv).1
    ∧ Effect.delete "raw-bucket" "cat.jpg"
        ∉ (process_record testCfg presignFailEnv).1 := by
  have hh := (presign_expiration_policy testCfg presignFailEnv "raw-bucket"
    "cat.jpg" rfl (by decide)).2 (Exc.otherError "credentials expired") rfl
  exact ⟨hh.1, hh.2.1 _ _, hh.2.2 _ _⟩

/-- C10: no rollback — when a record fails after the destination store
(presign yielding no URL, or the publish call raising), the processed
object stored under `processed-` + key stays in the trace (the handler
never removes it) and the original object is never deleted from the
source bucket. -/
theorem no_rollback_after_store (cfg : Config) (env : RecordEnv)
    (source key : String) (w h : Nat)
    (hbody : env.body = some (source, key))
    (hguard : cfg.PROCESSED_BUCKET_NAME ≠ source)
    (hks : env.keyIsString = true)
    (hf : env.fetchResult = .ok ())
    (hc : env.contentIsBytes = true)
    (hd : env.decodeResult = .ok (w, h))
    (hp : env.putResult = .ok ())
    (hlate : (∃ e0, env.presignCall = .error e0)
      ∨ (∃ url e1, env.presignCall = .ok url
          ∧ env.publishResult = .error e1)) :
    Effect.store cfg.PROCESSED_BUCKET_NAME ("processed-" ++ key) (w / 2, h / 2)
      ∈ (process_record cfg env).1
    ∧ (∀ b k2, Effect.delete b k2 ∉ (process_record cfg env).1)
    ∧ (process_record cfg env).2 = none := by
  obtain ⟨logs, hdec, hlogs⟩ := process_record_decomp cfg env source key
    hbody hguard
  rcases hlate with ⟨e0, hpc⟩ | ⟨url, e1, hpc, hpub⟩
  · have htr : run_try cfg env source key =
        ([.fetch source key,
          .store cfg.PROCESSED_BUCKET_NAME ("processed-" ++ key) (w / 2, h / 2),
          .presign cfg.PROCESSED_BUCKET_NAME ("processed-" ++ key) 3600,
          .log e0.msg],
         some (.otherError "Failed to generate a presigned URL.")) := by
      simp [run_try, hks, hf, hc, hd, hp, hpc, generate_presigned_url,
        DEFAULT_EXPIRATION]
    refine ⟨?_, ?_,
      (process_record_caught cfg env source key _ hbody hguard
        (by rw [htr])).1⟩
    · rw [hdec, htr]
      simp
    · intro b k2
      rw [hdec, htr]
      simp
      intro hx
      rcases hlogs _ hx with ⟨m2, hy⟩ | hy <;> simp at hy
  · have htr : run_try cfg env source key =
        ([.fetch source key,
          .store cfg.PROCESSED_BUCKET_NAME ("processed-" ++ key) (w / 2, h / 2),
          .presign cfg.PROCESSED_BUCKET_NAME ("processed-" ++ key) 3600],
         some e1) := by
      simp [run_try, hks, hf, hc, hd, hp, hpc, hpub, generate_presigned_url,
        DEFAULT_EXPIRATION]
    refine ⟨?_, ?_,
      (process_record_caught cfg env source key _ hbody hguard
        (by rw [htr])).1⟩
    · rw [hdec, htr]
      simp
    · intro b k2
      rw [hdec, htr]
      simp
      intro hx
      rcases hlogs _ hx with ⟨m2, hy⟩ | hy <;> simp at hy

/-- Witness for C10: with the presign call raising, the store effect is
present and no delete happens. -/
theorem no_rollback_after_store_witness :
    Effect.store "processed-bucket" ("processed-" ++ "cat.jpg") (4 / 2, 6 / 2)
      ∈ (process_record testCfg presignFailEnv).1
    ∧ Effect.delete "raw-bucket" "cat.jpg"
        ∉ (process_record testCfg presignFailEnv).1
    ∧ (process_record testCfg presignFailEnv).2 = none := by
  have hh := no_rollback_after_store testCfg presignFailEnv "raw-bucket"
    "cat.jpg" 4 6 rfl (by decide) rfl rfl rfl rfl rfl
    (Or.inl ⟨Exc.otherError "credentials expired", rfl⟩)
  exact ⟨hh.1, hh.2.1 _ _, hh.2.2⟩
